import Mathlib

/-!
Shallow embedding of `src/candle-core/src/quantized/cuda.rs` (the quantized
CUDA storage layer of candle): block-format constants, launch-configuration
computation, dispatch and error paths are translated directly from the Rust
source.  Device kernels, the dense matmul engine and the CPU encode/decode
routines are external collaborators: only the data that this file's source
computes and hands to them (sizes, launch configurations, kernel names,
error decisions) is modelled.
-/

set_option autoImplicit false

namespace Candle

/-- The `GgmlDType` enumeration of quantization schemes, as matched on
throughout `cuda.rs` (the enum itself is declared in the quantized module of
the repository, outside `src/`). -/
inductive GgmlDType where
  | F32 | F16
  | Q4_0 | Q4_1 | Q5_0 | Q5_1 | Q8_0 | Q8_1
  | Q2K | Q3K | Q4K | Q5K | Q6K | Q8K
  deriving DecidableEq

/-- Modelled from the spec: each scheme's `block_size` (elements encoded per
block) is a fixed per-scheme constant (§3); the defining Rust code
(`k_quants.rs` / `quantized/mod.rs`) is not under `src/`.  The values are the
GGML block-format constants (`QK4_0 = … = QK8_1 = 32`, `QK_K = 256`,
degenerate float schemes use 1). -/
def GgmlDType.block_size : GgmlDType → Nat
  | .F32 => 1
  | .F16 => 1
  | .Q4_0 | .Q4_1 | .Q5_0 | .Q5_1 | .Q8_0 | .Q8_1 => 32
  | .Q2K | .Q3K | .Q4K | .Q5K | .Q6K | .Q8K => 256

/-- Modelled from the spec: each scheme's `type_size` (bytes per encoded
block, metadata included) is a fixed per-scheme constant (§3); the defining
Rust code is not under `src/`.  The values are the byte sizes of the GGML
block structs (`BlockQ4_0` = 18, …, `BlockQ8K` = 292). -/
def GgmlDType.type_size : GgmlDType → Nat
  | .F32 => 4
  | .F16 => 2
  | .Q4_0 => 18
  | .Q4_1 => 20
  | .Q5_0 => 22
  | .Q5_1 => 24
  | .Q8_0 => 34
  | .Q8_1 => 36
  | .Q2K => 84
  | .Q3K => 110
  | .Q4K => 144
  | .Q5K => 176
  | .Q6K => 210
  | .Q8K => 292

def WARP_SIZE : Nat := 32
def MMQ_X_Q4_0_AMPERE : Nat := 4
def MMQ_Y_Q4_0_AMPERE : Nat := 32
def NWARPS_Q4_0_AMPERE : Nat := 4
def GGML_CUDA_MMV_X : Nat := 32
def GGML_CUDA_MMV_Y : Nat := 1
def CUDA_QUANTIZE_BLOCK_SIZE : Nat := 256
def CUDA_DEQUANTIZE_BLOCK_SIZE : Nat := 256
def MATRIX_ROW_PADDING : Nat := 512

/-- `fn ceil_div(p, q) = (p + q - 1) / q`. -/
def ceil_div (p q : Nat) : Nat :=
  (p + q - 1) / q

/-- `fn pad(p, q) = ceil_div(p, q) * q`. -/
def pad (p q : Nat) : Nat :=
  ceil_div p q * q

/-- One constructor per distinct `bail!` / error site reached by the code in
`cuda.rs` (each Rust error is a formatted message; constructors carry the
data interpolated into it). -/
inductive CudaError where
  | unexpectedDataSize (data_elems ncols nrows : Nat)
  | unexpectedYSize (y_len ncols nrows : Nat)
  | unsupportedDtypeDequantize (dtype : GgmlDType)
  | unsupportedDtypeMatmul (dtype : GgmlDType)
  | onlyF32CanBeQuantized
  | unexpectedDtypeAsCudaSlice
  | requiresContiguous
  | unexpectedRhsShapeDmmv (dims : List Nat)
  | mismatchMatmulDim (self_shape rhs_dims : List Nat)
  | unexpectedNumberOfDims (dims : List Nat)
  | unexpectedInputShape (dims : List Nat)
  deriving DecidableEq

/-- A `cudarc::driver::LaunchConfig` (grid dimensions, block dimensions,
shared-memory bytes). -/
structure LaunchConfig where
  gridDim : Nat × Nat × Nat
  blockDim : Nat × Nat × Nat
  sharedMemBytes : Nat
  deriving DecidableEq

/-- What `fn quantize_q8_1` computes and hands to the device: the launch
configuration and the scalar kernel arguments `kx`, `kx_padded`.  The kernel
itself is external. -/
structure QuantizeQ8_1Launch where
  kx : Nat
  kxPadded : Nat
  cfg : LaunchConfig
  deriving DecidableEq

/-- `fn quantize_q8_1` (cuda.rs lines 39-59), launch-side data only. -/
def quantize_q8_1 (elem_count : Nat) : QuantizeQ8_1Launch :=
  let kx := elem_count
  let kx_padded := pad kx MATRIX_ROW_PADDING
  let num_blocks := ceil_div kx_padded CUDA_QUANTIZE_BLOCK_SIZE
  { kx := kx
    kxPadded := kx_padded
    cfg := { gridDim := (num_blocks, 1, 1)
             blockDim := (CUDA_QUANTIZE_BLOCK_SIZE, 1, 1)
             sharedMemBytes := 0 } }

/-- What `fn dequantize` computes and hands to the device: kernel name, the
K-family flag, the launch configuration, the extra `nb32` scalar argument for
non-K kernels (`none` for K kernels, whose parameters are only the packed
buffer and the output pointer), and the length of the allocated `f32`
destination buffer. -/
structure DequantizeLaunch where
  kernelName : String
  is_k : Bool
  cfg : LaunchConfig
  nb32 : Option Nat
  dstLen : Nat
  deriving DecidableEq

/-- `fn dequantize` (cuda.rs lines 61-116): the per-scheme kernel table, the
grid/block computation and the parameter choice, translated arm by arm.  The
`data` buffer is passed to the kernel unchecked; only its byte length is
carried here (unused, mirroring that no size validation happens). -/
def dequantize (dataLen : Nat) (dtype : GgmlDType) (elem_count : Nat) :
    Except CudaError DequantizeLaunch :=
  let _ := dataLen
  let nb := (elem_count + 255) / 256
  let table : Option (String × Bool × Nat × Nat) :=
    match dtype with
    | .Q4_0 => some ("dequantize_block_q4_0", false, 32, nb)
    | .Q4_1 => some ("dequantize_block_q4_1", false, 32, nb)
    | .Q5_0 => some ("dequantize_block_q5_0", false, CUDA_DEQUANTIZE_BLOCK_SIZE,
        ceil_div elem_count (2 * CUDA_DEQUANTIZE_BLOCK_SIZE))
    | .Q5_1 => some ("dequantize_block_q5_1", false, CUDA_DEQUANTIZE_BLOCK_SIZE,
        ceil_div elem_count (2 * CUDA_DEQUANTIZE_BLOCK_SIZE))
    | .Q8_0 => some ("dequantize_block_q8_0", false, 32, nb)
    | .Q2K => some ("dequantize_block_q2_K", true, 64, nb)
    | .Q3K => some ("dequantize_block_q3_K", true, 64, nb)
    | .Q4K => some ("dequantize_block_q4_K", true, 32, nb)
    | .Q5K => some ("dequantize_block_q5_K", true, 64, nb)
    | .Q6K => some ("dequantize_block_q6_K", true, 64, nb)
    | .Q8K => some ("dequantize_block_q8_K", true, 32, nb)
    | _ => none
  match table with
  | none => .error (.unsupportedDtypeDequantize dtype)
  | some (kernel_name, is_k, block_dim, num_blocks) =>
    let nb32 : Option Nat :=
      if is_k then none
      else
        match dtype with
        | .Q5_0 | .Q5_1 => some elem_count
        | _ => some (elem_count / 32)
    .ok { kernelName := kernel_name
          is_k := is_k
          cfg := { gridDim := (num_blocks, 1, 1)
                   blockDim := (block_dim, 1, 1)
                   sharedMemBytes := 0 }
          nb32 := nb32
          dstLen := elem_count }

/-- What `fn dequantize_mul_mat_vec` computes and hands to the device. -/
structure MmvLaunch where
  kernelName : String
  cfg : LaunchConfig
  dstLen : Nat
  deriving DecidableEq

/-- The kernel-name table of `fn dequantize_mul_mat_vec` (cuda.rs lines
135-147); `none` on the `_ => bail!` arm. -/
def dmmvKernelName : GgmlDType → Option String
  | .Q4_0 => some ("dequantize_mul_mat_vec_q4_0_cuda")
  | .Q4_1 => some ("dequantize_mul_mat_vec_q4_1_cuda")
  | .Q5_0 => some ("dequantize_mul_mat_vec_q5_0_cuda")
  | .Q5_1 => some ("dequantize_mul_mat_vec_q5_1_cuda")
  | .Q8_0 => some ("dequantize_mul_mat_vec_q8_0_cuda")
  | .Q2K => some ("dequantize_mul_mat_vec_q2_k")
  | .Q3K => some ("dequantize_mul_mat_vec_q3_k")
  | .Q4K => some ("dequantize_mul_mat_vec_q4_k")
  | .Q5K => some ("dequantize_mul_mat_vec_q5_k")
  | .Q6K => some ("dequantize_mul_mat_vec_q6_k")
  | _ => none

/-- `fn dequantize_mul_mat_vec` (cuda.rs lines 118-160): the Strategy A
kernel.  `dataLen` is the packed buffer's byte length, `yLen` the float
vector's element count; size checks, kernel choice and launch configuration
are translated in source order. -/
def dequantize_mul_mat_vec (dataLen yLen : Nat) (dtype : GgmlDType)
    (ncols nrows : Nat) : Except CudaError MmvLaunch :=
  let data_elems := dataLen / dtype.type_size * dtype.block_size
  if data_elems < ncols * nrows then
    .error (.unexpectedDataSize data_elems ncols nrows)
  else if yLen ≠ ncols then
    .error (.unexpectedYSize yLen ncols nrows)
  else
    match dmmvKernelName dtype with
    | none => .error (.unsupportedDtypeMatmul dtype)
    | some kernel_name =>
      let block_num_y := ceil_div nrows GGML_CUDA_MMV_Y
      .ok { kernelName := kernel_name
            cfg := { gridDim := (block_num_y, 1, 1)
                     blockDim := (WARP_SIZE, GGML_CUDA_MMV_Y, 1)
                     sharedMemBytes := 0 }
            dstLen := nrows }

/-- What `fn mul_mat_vec_via_q8_1` computes and hands to the device:
the intermediate `y_q8_1` buffer size, the launch of `quantize_q8_1` on `y`,
then the integer-dot kernel's name and launch configuration. -/
structure MmvQ8_1Launch where
  ySizeInBytes : Nat
  quantizeLaunch : QuantizeQ8_1Launch
  kernelName : String
  cfg : LaunchConfig
  dstLen : Nat
  deriving DecidableEq

/-- The kernel-name table of `fn mul_mat_vec_via_q8_1` (cuda.rs lines
185-197); `none` on the `_ => bail!` arm. -/
def q8_1KernelName : GgmlDType → Option String
  | .Q4_0 => some ("mul_mat_vec_q4_0_q8_1_cuda")
  | .Q4_1 => some ("mul_mat_vec_q4_1_q8_1_cuda")
  | .Q5_0 => some ("mul_mat_vec_q5_0_q8_1_cuda")
  | .Q5_1 => some ("mul_mat_vec_q5_1_q8_1_cuda")
  | .Q8_0 => some ("mul_mat_vec_q8_0_q8_1_cuda")
  | .Q2K => some ("mul_mat_vec_q2_K_q8_1_cuda")
  | .Q3K => some ("mul_mat_vec_q3_K_q8_1_cuda")
  | .Q4K => some ("mul_mat_vec_q4_K_q8_1_cuda")
  | .Q5K => some ("mul_mat_vec_q5_K_q8_1_cuda")
  | .Q6K => some ("mul_mat_vec_q6_K_q8_1_cuda")
  | _ => none

/-- `fn mul_mat_vec_via_q8_1` (cuda.rs lines 162-217): the Strategy B
kernel.  Same size checks as Strategy A, then the `y` vector is quantized
into a padded Q8_1 intermediate before the integer-dot kernel launch. -/
def mul_mat_vec_via_q8_1 (dataLen yLen : Nat) (dtype : GgmlDType)
    (ncols nrows : Nat) : Except CudaError MmvQ8_1Launch :=
  let data_elems := dataLen / dtype.type_size * dtype.block_size
  if data_elems < ncols * nrows then
    .error (.unexpectedDataSize data_elems ncols nrows)
  else if yLen ≠ ncols then
    .error (.unexpectedYSize yLen ncols nrows)
  else
    let ncols_padded := pad ncols MATRIX_ROW_PADDING
    let y_size_in_bytes :=
      ncols_padded * GgmlDType.Q8_1.type_size / GgmlDType.Q8_1.block_size
    let ql := quantize_q8_1 ncols
    match q8_1KernelName dtype with
    | none => .error (.unsupportedDtypeMatmul dtype)
    | some kernel_name =>
      .ok { ySizeInBytes := y_size_in_bytes
            quantizeLaunch := ql
            kernelName := kernel_name
            cfg := { gridDim := (nrows, 1, 1)
                     blockDim := (WARP_SIZE, 4, 1)
                     sharedMemBytes := 0 }
            dstLen := nrows }

/-- `QCudaStorage` (cuda.rs lines 8-13): the packed device byte buffer (one
`Nat` per byte) and the scheme tag.  The shared `CudaDevice` handle carries
no data relevant to any claim and is omitted. -/
structure QCudaStorage where
  data : List Nat
  dtype : GgmlDType
  deriving DecidableEq

/-- `QCudaStorage::zeros` (cuda.rs lines 220-228): allocate
`ceil_div(el_count, block_size) * type_size` zeroed bytes.  Allocation is
modelled as succeeding (an `AllocationError` would come from the external
allocator). -/
def QCudaStorage.zeros (el_count : Nat) (dtype : GgmlDType) : QCudaStorage :=
  let size_in_bytes := ceil_div el_count dtype.block_size * dtype.type_size
  { data := List.replicate size_in_bytes 0
    dtype := dtype }

/-- `QCudaStorage::storage_size_in_bytes` (cuda.rs lines 306-308):
`self.data.len()`. -/
def QCudaStorage.storage_size_in_bytes (self : QCudaStorage) : Nat :=
  self.data.length

/-- The `fast_kernel` dtype set of `QCudaStorage::dequantize` (cuda.rs lines
245-258). -/
def fastKernelSet : GgmlDType → Bool
  | .Q4_0 | .Q4_1 | .Q5_0 | .Q5_1 | .Q8_0
  | .Q2K | .Q3K | .Q4K | .Q5K | .Q6K | .Q8K => true
  | _ => false

/-- Which path `QCudaStorage::dequantize` took: the device fast path (with
its launch data) or the host round-trip fallback (with the `block_len`
passed to the external per-scheme decoder, computed by truncating integer
division). -/
inductive DeqPath where
  | device (l : DequantizeLaunch)
  | hostFallback (block_len : Nat)
  deriving DecidableEq

def DeqPath.isDevice : DeqPath → Bool
  | .device _ => true
  | .hostFallback _ => false

/-- Result of `QCudaStorage::dequantize`: the path taken and the length of
the produced `f32` buffer. -/
structure DeqOut where
  path : DeqPath
  outLen : Nat
  deriving DecidableEq

/-- `QCudaStorage::dequantize` (cuda.rs lines 238-286): dispatch to the
device kernel for the `fast_kernel` set, otherwise copy to host, decode
`elem_count / block_size` blocks with the external per-scheme decoder into a
buffer of `elem_count` floats, and copy back.  No divisibility validation is
performed on either path. -/
def QCudaStorage.dequantize (self : QCudaStorage) (elem_count : Nat) :
    Except CudaError DeqOut :=
  if fastKernelSet self.dtype then
    match Candle.dequantize self.data.length self.dtype elem_count with
    | .error e => .error e
    | .ok l => .ok { path := .device l, outLen := elem_count }
  else
    let block_len := elem_count / self.dtype.block_size
    .ok { path := .hostFallback block_len, outLen := elem_count }

/-- A `CudaStorage` right-hand operand, by dtype: an `F32` buffer (modelled
by its element count; the float contents live on the device and only feed
the external kernels) or any other dtype. -/
inductive CudaStorageSlice where
  | F32 (len : Nat)
  | other
  deriving DecidableEq

/-- `storage.as_cuda_slice::<f32>()`: errors unless the slice is `F32`. -/
def CudaStorageSlice.asF32Len : CudaStorageSlice → Except CudaError Nat
  | .F32 n => .ok n
  | .other => .error .unexpectedDtypeAsCudaSlice

/-- `QCudaStorage::quantize` (cuda.rs lines 288-304).  The source copies the
`F32` operand to host, re-encodes it on the CPU (`Device::Cpu.qzeros` +
`quantize`, code outside `src/`) and replaces `self.data` wholesale with the
encoded bytes.  Modelled from the spec: the encoded byte string is supplied
as the `encoded` argument; per §3 its length is
`ceil_div(src_len, block_size) * type_size`, a fact taken as a hypothesis
where needed.  Any non-`F32` source fails. -/
def QCudaStorage.quantize (self : QCudaStorage) (src : CudaStorageSlice)
    (encoded : List Nat) : Except CudaError QCudaStorage :=
  match src with
  | .F32 _ => .ok { data := encoded, dtype := self.dtype }
  | .other => .error .onlyF32CanBeQuantized

/-- A `crate::Layout` as used here: its shape's dims and the result of
`contiguous_offsets()` (`some (start, start + elem_count)` when the layout is
contiguous, else `none`). -/
structure Layout where
  dims : List Nat
  contiguous_offsets : Option (Nat × Nat)
  deriving DecidableEq

/-- `Shape::dims2`: exactly two dims, else a shape error. -/
def dims2 : List Nat → Except CudaError (Nat × Nat)
  | [a, b] => .ok (a, b)
  | s => .error (.unexpectedNumberOfDims s)

/-- Which matrix-vector strategy ran (cuda.rs lines 346-350). -/
inductive Strategy where
  | dmmv
  | viaQ8_1
  deriving DecidableEq

/-- Which dispatcher branch `fwd` took. -/
inductive FwdPath where
  | vec
  | mat
  deriving DecidableEq

/-- Result of `QCudaStorage::fwd` and its two branches: branch taken,
strategy used (vector path only), output shape, output element count, and
the element count passed to `dequantize` (matrix path only). -/
structure FwdOut where
  path : FwdPath
  strategy : Option Strategy
  outShape : List Nat
  outLen : Nat
  dequantizedElems : Option Nat
  deriving DecidableEq

/-- The rhs-shape match of `dequantize_matmul_vec` (cuda.rs lines 337-341):
`[1, 1, k]` gives `(with_batch := true, k)`, `[1, k]` gives `(false, k)`,
anything else bails.  Written with variable patterns and equality tests so
that it reduces on symbolic dims. -/
def dmmvRhsShape : List Nat → Option (Bool × Nat)
  | [a, b, k] => if a == 1 && b == 1 then some (true, k) else none
  | [a, k] => if a == 1 then some (false, k) else none
  | _ => none

/-- `QCudaStorage::dequantize_matmul_vec` (cuda.rs lines 325-357).  The
process-wide `FORCE_DMMV` atomic is threaded explicitly as `force`.  Checks
run in source order: `dims2` on the matrix shape, `as_cuda_slice::<f32>`,
contiguity, rhs-shape match, inner-dimension check, then the selected
strategy's kernel. -/
def QCudaStorage.dequantize_matmul_vec (self : QCudaStorage) (force : Bool)
    (self_shape : List Nat) (rhs : CudaStorageSlice) (rhs_l : Layout) :
    Except CudaError FwdOut :=
  match dims2 self_shape with
  | .error e => .error e
  | .ok (nrows, ncols) =>
    match rhs.asF32Len with
    | .error e => .error e
    | .ok _rhsLen =>
      match rhs_l.contiguous_offsets with
      | none => .error .requiresContiguous
      | some (o1, o2) =>
        let yLen := o2 - o1
        match dmmvRhsShape rhs_l.dims with
        | none => .error (.unexpectedRhsShapeDmmv rhs_l.dims)
        | some (with_batch, k) =>
          if ncols ≠ k then .error (.mismatchMatmulDim self_shape rhs_l.dims)
          else
            let strat : Except CudaError Nat :=
              if force then
                match dequantize_mul_mat_vec self.data.length yLen self.dtype
                    ncols nrows with
                | .error e => .error e
                | .ok l => .ok l.dstLen
              else
                match mul_mat_vec_via_q8_1 self.data.length yLen self.dtype
                    ncols nrows with
                | .error e => .error e
                | .ok l => .ok l.dstLen
            match strat with
            | .error e => .error e
            | .ok dstLen =>
              .ok { path := .vec
                    strategy := some (if force then .dmmv else .viaQ8_1)
                    outShape := if with_batch then [1, 1, nrows] else [1, nrows]
                    outLen := dstLen
                    dequantizedElems := none }

/-- The input-shape match of `dequantize_matmul` (cuda.rs lines 367-371):
`[b, m, k2]` as is, `[m, k2]` as `(1, m, k2)`, else a shape error. -/
def bmk : List Nat → Except CudaError (Nat × Nat × Nat)
  | [b, m, k2] => .ok (b, m, k2)
  | [m, k2] => .ok (1, m, k2)
  | s => .error (.unexpectedInputShape s)

/-- `QCudaStorage::dequantize_matmul` (cuda.rs lines 359-383): the matrix
path.  After the inner-dimension check the quantized matrix is dequantized
to `n * k` elements (no buffer-size check anywhere on this path) and handed
with the rhs to the external dense matmul engine, modelled as succeeding
with `b * m * n` output elements. -/
def QCudaStorage.dequantize_matmul (self : QCudaStorage)
    (self_shape : List Nat) (_storage : CudaStorageSlice) (layout : Layout) :
    Except CudaError FwdOut :=
  match dims2 self_shape with
  | .error e => .error e
  | .ok (n, k) =>
    match bmk layout.dims with
    | .error e => .error e
    | .ok (b, m, k2) =>
      if k2 ≠ k then .error (.mismatchMatmulDim self_shape layout.dims)
      else
        match self.dequantize (n * k) with
        | .error e => .error e
        | .ok _deq =>
          .ok { path := .mat
                strategy := none
                outShape := layout.dims.dropLast ++ [n]
                outLen := b * m * n
                dequantizedElems := some (n * k) }

/-- The dispatcher guard of `fwd` (cuda.rs line 316):
`matches!(dims, [1, 1, _] | [1, _])`, written with variable patterns and
equality tests so that it reduces on symbolic dims. -/
def isVecShape : List Nat → Bool
  | [a, b, _] => a == 1 && b == 1
  | [a, _] => a == 1
  | _ => false

/-- `QCudaStorage::fwd` (cuda.rs lines 310-321): route `[1, k]` / `[1, 1, k]`
right-hand operands to the vector path, everything else to the matrix
path. -/
def QCudaStorage.fwd (self : QCudaStorage) (force : Bool)
    (self_shape : List Nat) (storage : CudaStorageSlice) (layout : Layout) :
    Except CudaError FwdOut :=
  if isVecShape layout.dims then
    self.dequantize_matmul_vec force self_shape storage layout
  else
    self.dequantize_matmul self_shape storage layout

/-- The two size-check `bail!` sites shared by both matrix-vector strategies
(the "shape mismatch" class of errors about buffer/vector sizes). -/
def CudaError.isSizeCheck : CudaError → Bool
  | .unexpectedDataSize _ _ _ => true
  | .unexpectedYSize _ _ _ => true
  | _ => false

/-- Whether a result failed one of the two matrix-vector size checks. -/
def failsSizeCheck {α : Type} : Except CudaError α → Bool
  | .error e => e.isSizeCheck
  | .ok _ => false

/-! Helper lemmas shared by the claim theorems. -/

/-- `QCudaStorage::dequantize` returns a result for every scheme and element
count: the fast-kernel guard covers exactly the schemes handled by the device
table, and the host fallback handles every scheme. -/
theorem QCudaStorage.dequantize_ok (self : QCudaStorage) (elem_count : Nat) :
    ∃ o, self.dequantize elem_count = .ok o := by
  obtain ⟨data, dtype⟩ := self
  cases dtype <;> exact ⟨_, rfl⟩

/-- `dims2` only ever fails with the number-of-dims shape error. -/
theorem dims2_error_shape (s : List Nat) (e : CudaError)
    (h : dims2 s = .error e) : e = .unexpectedNumberOfDims s := by
  unfold dims2 at h
  split at h
  · cases h
  · exact (Except.error.inj h).symm

/-- `bmk` only ever fails with the unexpected-input-shape error. -/
theorem bmk_error_shape (s : List Nat) (e : CudaError)
    (h : bmk s = .error e) : e = .unexpectedInputShape s := by
  unfold bmk at h
  split at h
  · cases h
  · cases h
  · exact (Except.error.inj h).symm

/-- Strategy A with passing size checks and a supported scheme launches its
kernel with the grid/block table of the source. -/
theorem dequantize_mul_mat_vec_ok (dataLen : Nat) (dtype : GgmlDType)
    (ncols nrows : Nat) (name : String)
    (hd : ¬ dataLen / dtype.type_size * dtype.block_size < ncols * nrows)
    (hk : dmmvKernelName dtype = some name) :
    dequantize_mul_mat_vec dataLen ncols dtype ncols nrows =
      .ok { kernelName := name,
            cfg := { gridDim := (ceil_div nrows GGML_CUDA_MMV_Y, 1, 1),
                     blockDim := (WARP_SIZE, GGML_CUDA_MMV_Y, 1),
                     sharedMemBytes := 0 },
            dstLen := nrows } := by
  simp [dequantize_mul_mat_vec, hd, hk]

/-- Strategy B with passing size checks and a supported scheme launches its
kernel with the grid/block table of the source. -/
theorem mul_mat_vec_via_q8_1_ok (dataLen : Nat) (dtype : GgmlDType)
    (ncols nrows : Nat) (name : String)
    (hd : ¬ dataLen / dtype.type_size * dtype.block_size < ncols * nrows)
    (hk : q8_1KernelName dtype = some name) :
    mul_mat_vec_via_q8_1 dataLen ncols dtype ncols nrows =
      .ok { ySizeInBytes :=
              pad ncols MATRIX_ROW_PADDING * GgmlDType.Q8_1.type_size /
                GgmlDType.Q8_1.block_size,
            quantizeLaunch := quantize_q8_1 ncols,
            kernelName := name,
            cfg := { gridDim := (nrows, 1, 1),
                     blockDim := (WARP_SIZE, 4, 1),
                     sharedMemBytes := 0 },
            dstLen := nrows } := by
  simp [mul_mat_vec_via_q8_1, hd, hk]

/-- Full evaluation of the vector path on a well-formed contiguous `[1, k]`
or `[1, 1, k]` operand with matching inner dimension, for either strategy. -/
theorem dequantize_matmul_vec_eval (self : QCudaStorage) (force : Bool)
    (nrows ncols o1 rhsLen : Nat) (with_batch : Bool)
    (hd : ¬ self.data.length / self.dtype.type_size * self.dtype.block_size <
      ncols * nrows)
    (h1 : (dmmvKernelName self.dtype).isSome = true)
    (h2 : (q8_1KernelName self.dtype).isSome = true) :
    self.dequantize_matmul_vec force [nrows, ncols] (.F32 rhsLen)
      { dims := if with_batch then [1, 1, ncols] else [1, ncols],
        contiguous_offsets := some (o1, o1 + ncols) } =
    .ok { path := .vec,
          strategy := some (if force then .dmmv else .viaQ8_1),
          outShape := if with_batch then [1, 1, nrows] else [1, nrows],
          outLen := nrows,
          dequantizedElems := none } := by
  obtain ⟨nameA, hA⟩ := Option.isSome_iff_exists.mp h1
  obtain ⟨nameB, hB⟩ := Option.isSome_iff_exists.mp h2
  have eA := dequantize_mul_mat_vec_ok self.data.length self.dtype ncols nrows
    nameA hd hA
  have eB := mul_mat_vec_via_q8_1_ok self.data.length self.dtype ncols nrows
    nameB hd hB
  cases with_batch <;> cases force <;>
    simp [QCudaStorage.dequantize_matmul_vec, dims2, CudaStorageSlice.asF32Len,
      dmmvRhsShape, Nat.add_sub_cancel_left, eA, eB]

/-- Full evaluation of the matrix path on a 2-D or 3-D operand with matching
inner dimension. -/
theorem dequantize_matmul_eval (self : QCudaStorage) (n k b m : Nat)
    (storage : CudaStorageSlice) (layout : Layout)
    (hb : bmk layout.dims = .ok (b, m, k)) :
    self.dequantize_matmul [n, k] storage layout =
      .ok { path := .mat,
            strategy := none,
            outShape := layout.dims.dropLast ++ [n],
            outLen := b * m * n,
            dequantizedElems := some (n * k) } := by
  obtain ⟨o, ho⟩ := QCudaStorage.dequantize_ok self (n * k)
  simp [QCudaStorage.dequantize_matmul, dims2, hb, ho]

/-! Claim theorems. -/

/-- Claim C3: for a `QCudaStorage` whose buffer byte length satisfies the
`ceil(n / block_size) * type_size` invariant for its declared element count
`n`, a `quantize` call with a float source of `src_len = n` elements (whose
host-side encoding has the spec-mandated byte length) succeeds, fully
replaces the buffer content with the new encoding, keeps the scheme tag
unchanged, and keeps the buffer byte length unchanged. -/
theorem claim_C3 (self : QCudaStorage) (n src_len : Nat) (encoded : List Nat)
    (hinv : self.data.length =
      ceil_div n self.dtype.block_size * self.dtype.type_size)
    (hlen : encoded.length =
      ceil_div src_len self.dtype.block_size * self.dtype.type_size)
    (hmatch : src_len = n) :
    self.quantize (.F32 src_len) encoded =
      .ok { data := encoded, dtype := self.dtype }
    ∧ encoded.length = self.data.length := by
  subst hmatch
  exact ⟨rfl, hlen.trans hinv.symm⟩

/-- Claim C3 witness: concrete instance at scheme `Q4_0` with 32 declared
elements (18-byte buffer). -/
theorem claim_C3_witness :
    (QCudaStorage.zeros 32 .Q4_0).quantize (.F32 32) (List.replicate 18 1) =
      .ok { data := List.replicate 18 1, dtype := .Q4_0 }
    ∧ (List.replicate 18 1).length = (QCudaStorage.zeros 32 .Q4_0).data.length :=
  claim_C3 (QCudaStorage.zeros 32 .Q4_0) 32 32 (List.replicate 18 1)
    (by decide) (by decide) rfl

/-- Claim C4 counterexample: at scheme `Q4_0` (block size 32) and element
count 33 — not a multiple of the block size — `dequantize` succeeds instead
of failing with an `UnsupportedDtype` error, refuting the claim as stated. -/
theorem claim_C4_counterexample :
    33 % GgmlDType.Q4_0.block_size ≠ 0
    ∧ ((QCudaStorage.zeros 33 .Q4_0).dequantize 33).isOk = true := by
  decide

/-- Claim C4 as amended: `QCudaStorage::dequantize` performs no divisibility
validation at all — for every scheme and every element count it returns a
result (never an error, in particular never `UnsupportedDtype`), and on the
host-fallback path the block count is computed by truncating integer
division `elem_count / block_size`. -/
theorem claim_C4_amended (self : QCudaStorage) (elem_count : Nat) :
    (self.dequantize elem_count).isOk = true
    ∧ (fastKernelSet self.dtype = false →
        self.dequantize elem_count =
          .ok { path := .hostFallback (elem_count / self.dtype.block_size),
                outLen := elem_count }) := by
  obtain ⟨data, dtype⟩ := self
  cases dtype <;>
    refine ⟨rfl, fun h => ?_⟩ <;>
    first
      | rfl
      | exact Bool.noConfusion h

/-- Claim C4 amended witness: `F32` (host-fallback scheme, block size 1) at
element count 7. -/
theorem claim_C4_amended_witness :
    ((⟨List.replicate 4 0, .F32⟩ : QCudaStorage).dequantize 7).isOk = true
    ∧ (⟨List.replicate 4 0, .F32⟩ : QCudaStorage).dequantize 7 =
        .ok { path := .hostFallback 7, outLen := 7 } :=
  ⟨(claim_C4_amended ⟨List.replicate 4 0, .F32⟩ 7).1,
   (claim_C4_amended ⟨List.replicate 4 0, .F32⟩ 7).2 rfl⟩

/-- Claim C5: for every scheme and element count, `zeros` allocates a
zero-initialized buffer of exactly `ceil_div(el_count, block_size) *
type_size` bytes, and `storage_size_in_bytes` on the result returns that
same value (the formula is the ceiling formula, so non-multiples of
`block_size` round up). -/
theorem claim_C5 (el_count : Nat) (dtype : GgmlDType) :
    (QCudaStorage.zeros el_count dtype).data =
      List.replicate (ceil_div el_count dtype.block_size * dtype.type_size) 0
    ∧ (QCudaStorage.zeros el_count dtype).storage_size_in_bytes =
      ceil_div el_count dtype.block_size * dtype.type_size :=
  ⟨rfl, by simp [QCudaStorage.zeros, QCudaStorage.storage_size_in_bytes]⟩

/-- Claim C6: on the vector path (valid contiguous `[1, k]` or `[1, 1, k]`
operand, matching inner dimension, supported scheme, sufficient data), the
strategy used is `dmmv` (Strategy A, `dequantize_mul_mat_vec`) exactly when
the process-wide force flag is set, and `viaQ8_1` (Strategy B,
`mul_mat_vec_via_q8_1`) otherwise. -/
theorem claim_C6 (self : QCudaStorage) (force : Bool)
    (nrows ncols o1 rhsLen : Nat) (with_batch : Bool)
    (hd : ¬ self.data.length / self.dtype.type_size * self.dtype.block_size <
      ncols * nrows)
    (h1 : (dmmvKernelName self.dtype).isSome = true)
    (h2 : (q8_1KernelName self.dtype).isSome = true) :
    (self.dequantize_matmul_vec force [nrows, ncols] (.F32 rhsLen)
        { dims := if with_batch then [1, 1, ncols] else [1, ncols],
          contiguous_offsets := some (o1, o1 + ncols) }).map
      (fun o => o.strategy) =
    .ok (some (if force then .dmmv else .viaQ8_1)) := by
  rw [dequantize_matmul_vec_eval self force nrows ncols o1 rhsLen with_batch
    hd h1 h2]
  rfl

/-- Claim C6 witness: scheme `Q4_0`, 2×32 matrix, both flag values. -/
theorem claim_C6_witness :
    ((QCudaStorage.zeros 64 .Q4_0).dequantize_matmul_vec true [2, 32]
        (.F32 32) { dims := [1, 32], contiguous_offsets := some (0, 32) }).map
      (fun o => o.strategy) = .ok (some .dmmv)
    ∧ ((QCudaStorage.zeros 64 .Q4_0).dequantize_matmul_vec false [2, 32]
        (.F32 32) { dims := [1, 32], contiguous_offsets := some (0, 32) }).map
      (fun o => o.strategy) = .ok (some .viaQ8_1) := by
  have hT := claim_C6 (QCudaStorage.zeros 64 .Q4_0) true 2 32 0 32 false
    (by decide) (by decide) (by decide)
  have hF := claim_C6 (QCudaStorage.zeros 64 .Q4_0) false 2 32 0 32 false
    (by decide) (by decide) (by decide)
  exact ⟨by simpa using hT, by simpa using hF⟩

/-- Claim C7: for both matrix-vector strategies, the call fails one of the
two size checks (a shape-mismatch error) whenever the buffer's element
count, computed as `byte_length / type_size * block_size`, is below
`ncols * nrows`, or the float vector's length differs from `ncols`; when
both conditions hold, neither check fails. -/
theorem claim_C7 (dataLen yLen : Nat) (dtype : GgmlDType) (ncols nrows : Nat) :
    ((dataLen / dtype.type_size * dtype.block_size < ncols * nrows ∨
        yLen ≠ ncols) →
      failsSizeCheck (dequantize_mul_mat_vec dataLen yLen dtype ncols nrows) =
        true
      ∧ failsSizeCheck (mul_mat_vec_via_q8_1 dataLen yLen dtype ncols nrows) =
        true)
    ∧ (¬ dataLen / dtype.type_size * dtype.block_size < ncols * nrows →
        yLen = ncols →
      failsSizeCheck (dequantize_mul_mat_vec dataLen yLen dtype ncols nrows) =
        false
      ∧ failsSizeCheck (mul_mat_vec_via_q8_1 dataLen yLen dtype ncols nrows) =
        false) := by
  constructor
  · intro h
    by_cases hd : dataLen / dtype.type_size * dtype.block_size < ncols * nrows
    · constructor <;>
        simp [dequantize_mul_mat_vec, mul_mat_vec_via_q8_1, hd, failsSizeCheck,
          CudaError.isSizeCheck]
    · have hy : yLen ≠ ncols := h.resolve_left hd
      constructor <;>
        simp [dequantize_mul_mat_vec, mul_mat_vec_via_q8_1, hd, hy,
          failsSizeCheck, CudaError.isSizeCheck]
  · intro hd hy
    subst hy
    constructor
    · cases hk : dmmvKernelName dtype <;>
        simp [dequantize_mul_mat_vec, hd, hk, failsSizeCheck,
          CudaError.isSizeCheck]
    · cases hk : q8_1KernelName dtype <;>
        simp [mul_mat_vec_via_q8_1, hd, hk, failsSizeCheck,
          CudaError.isSizeCheck]

/-- Claim C7 witness: scheme `Q4_0`, one 18-byte block (32 elements), a 32×1
request with a correct vector passes both checks; a 31-long vector fails. -/
theorem claim_C7_witness :
    failsSizeCheck (dequantize_mul_mat_vec 18 32 .Q4_0 32 1) = false
    ∧ failsSizeCheck (mul_mat_vec_via_q8_1 18 31 .Q4_0 32 1) = true :=
  ⟨((claim_C7 18 32 .Q4_0 32 1).2 (by decide) rfl).1,
   ((claim_C7 18 31 .Q4_0 32 1).1 (Or.inr (by decide))).2⟩

/-- Claim C8 counterexample: for the 5-bit scheme `Q5_0` the device
dequantize launch uses a thread-block width of 256
(`CUDA_DEQUANTIZE_BLOCK_SIZE`), not the width 32 the claim asserts for the
simple families. -/
theorem claim_C8_counterexample :
    (dequantize 22 .Q5_0 512).map (fun l => l.cfg.blockDim) = .ok (256, 1, 1)
    ∧ ((256, 1, 1) : Nat × Nat × Nat) ≠ (32, 1, 1) :=
  ⟨rfl, by decide⟩

/-- Claim C8 as amended: the device dequantize launch table, per scheme, for
every element count: grid size `ceil(elem_count / 256)` except the two 5-bit
schemes with `ceil(elem_count / 512)`; thread-block width 32 for the simple
families except the two 5-bit schemes which use 256, 64 for most K-family
schemes, 32 for the two K-family exceptions (`Q4K`, `Q8K`); K-family kernels
get no extra sub-block argument, non-K kernels get `elem_count` for the two
5-bit schemes and `elem_count / 32` otherwise. -/
theorem claim_C8_amended (dataLen elem_count : Nat) :
    dequantize dataLen .Q4_0 elem_count =
      .ok { kernelName := "dequantize_block_q4_0", is_k := false,
            cfg := { gridDim := (ceil_div elem_count 256, 1, 1),
                     blockDim := (32, 1, 1), sharedMemBytes := 0 },
            nb32 := some (elem_count / 32), dstLen := elem_count }
    ∧ dequantize dataLen .Q4_1 elem_count =
      .ok { kernelName := "dequantize_block_q4_1", is_k := false,
            cfg := { gridDim := (ceil_div elem_count 256, 1, 1),
                     blockDim := (32, 1, 1), sharedMemBytes := 0 },
            nb32 := some (elem_count / 32), dstLen := elem_count }
    ∧ dequantize dataLen .Q5_0 elem_count =
      .ok { kernelName := "dequantize_block_q5_0", is_k := false,
            cfg := { gridDim := (ceil_div elem_count 512, 1, 1),
                     blockDim := (256, 1, 1), sharedMemBytes := 0 },
            nb32 := some elem_count, dstLen := elem_count }
    ∧ dequantize dataLen .Q5_1 elem_count =
      .ok { kernelName := "dequantize_block_q5_1", is_k := false,
            cfg := { gridDim := (ceil_div elem_count 512, 1, 1),
                     blockDim := (256, 1, 1), sharedMemBytes := 0 },
            nb32 := some elem_count, dstLen := elem_count }
    ∧ dequantize dataLen .Q8_0 elem_count =
      .ok { kernelName := "dequantize_block_q8_0", is_k := false,
            cfg := { gridDim := (ceil_div elem_count 256, 1, 1),
                     blockDim := (32, 1, 1), sharedMemBytes := 0 },
            nb32 := some (elem_count / 32), dstLen := elem_count }
    ∧ dequantize dataLen .Q2K elem_count =
      .ok { kernelName := "dequantize_block_q2_K", is_k := true,
            cfg := { gridDim := (ceil_div elem_count 256, 1, 1),
                     blockDim := (64, 1, 1), sharedMemBytes := 0 },
            nb32 := none, dstLen := elem_count }
    ∧ dequantize dataLen .Q3K elem_count =
      .ok { kernelName := "dequantize_block_q3_K", is_k := true,
            cfg := { gridDim := (ceil_div elem_count 256, 1, 1),
                     blockDim := (64, 1, 1), sharedMemBytes := 0 },
            nb32 := none, dstLen := elem_count }
    ∧ dequantize dataLen .Q4K elem_count =
      .ok { kernelName := "dequantize_block_q4_K", is_k := true,
            cfg := { gridDim := (ceil_div elem_count 256, 1, 1),
                     blockDim := (32, 1, 1), sharedMemBytes := 0 },
            nb32 := none, dstLen := elem_count }
    ∧ dequantize dataLen .Q5K elem_count =
      .ok { kernelName := "dequantize_block_q5_K", is_k := true,
            cfg := { gridDim := (ceil_div elem_count 256, 1, 1),
                     blockDim := (64, 1, 1), sharedMemBytes := 0 },
            nb32 := none, dstLen := elem_count }
    ∧ dequantize dataLen .Q6K elem_count =
      .ok { kernelName := "dequantize_block_q6_K", is_k := true,
            cfg := { gridDim := (ceil_div elem_count 256, 1, 1),
                     blockDim := (64, 1, 1), sharedMemBytes := 0 },
            nb32 := none, dstLen := elem_count }
    ∧ dequantize dataLen .Q8K elem_count =
      .ok { kernelName := "dequantize_block_q8_K", is_k := true,
            cfg := { gridDim := (ceil_div elem_count 256, 1, 1),
                     blockDim := (32, 1, 1), sharedMemBytes := 0 },
            nb32 := none, dstLen := elem_count } :=
  ⟨rfl, rfl, rfl, rfl, rfl, rfl, rfl, rfl, rfl, rfl, rfl⟩

/-- Claim C9 counterexample: `Q8_0` — the 8-bit plain scheme — is in the
fast-kernel set and dequantizes through the device path, so the claim's
four-scheme host-fallback set (which includes an 8-bit plain scheme) is
wrong. -/
theorem claim_C9_counterexample :
    fastKernelSet .Q8_0 = true
    ∧ ((⟨List.replicate 34 0, .Q8_0⟩ : QCudaStorage).dequantize 32).map
        (fun o => o.path.isDevice) = .ok true :=
  ⟨rfl, rfl⟩

/-- Claim C9 as amended: exactly the three schemes `F32`, `F16` and `Q8_1`
(32-bit float, 16-bit float, 8-bit activation) lack a device dequantize
kernel; for those `dequantize` takes the host fallback path (copy to host,
decode `elem_count / block_size` reinterpreted block records with the
external per-scheme decoder, copy back), and every other scheme takes the
device fast path. -/
theorem claim_C9_amended (self : QCudaStorage) (elem_count : Nat) :
    (fastKernelSet self.dtype = false ↔
      (self.dtype = .F32 ∨ self.dtype = .F16 ∨ self.dtype = .Q8_1))
    ∧ (fastKernelSet self.dtype = false →
        self.dequantize elem_count =
          .ok { path := .hostFallback (elem_count / self.dtype.block_size),
                outLen := elem_count })
    ∧ (fastKernelSet self.dtype = true →
        ∃ l, self.dequantize elem_count =
          .ok { path := .device l, outLen := elem_count }) := by
  obtain ⟨data, dtype⟩ := self
  cases dtype <;>
    refine ⟨by simp [fastKernelSet], fun h => ?_, fun h => ?_⟩ <;>
    first
      | rfl
      | exact Bool.noConfusion h
      | exact ⟨_, rfl⟩

/-- Claim C9 amended witness: `F16` falls back to host decode, `Q6K` runs on
the device. -/
theorem claim_C9_amended_witness :
    (⟨[], .F16⟩ : QCudaStorage).dequantize 5 =
      .ok { path := .hostFallback 5, outLen := 5 }
    ∧ ∃ l, (⟨[], .Q6K⟩ : QCudaStorage).dequantize 512 =
      .ok { path := .device l, outLen := 512 } :=
  ⟨(claim_C9_amended ⟨[], .F16⟩ 5).2.1 rfl,
   (claim_C9_amended ⟨[], .Q6K⟩ 512).2.2 rfl⟩

/-- Claim C2: the dispatcher `fwd` routes a right-hand operand of layout
shape `[1, k]` or `[1, 1, k]` (contiguous, `F32`, matching inner dimension,
supported scheme, sufficient buffer) to the vector path with output shape
`[1, n_rows]` resp. `[1, 1, n_rows]`; every other 2-D or 3-D shape with
inner dimension equal to the matrix's column count goes to the matrix path
with output shape equal to the input shape with its last dimension replaced
by `n_rows`; and a mismatched inner dimension fails with the dimension
shape-mismatch error on both paths. -/
theorem claim_C2 (self : QCudaStorage) (force : Bool) (nrows ncols : Nat)
    (h1 : (dmmvKernelName self.dtype).isSome = true)
    (h2 : (q8_1KernelName self.dtype).isSome = true)
    (hdata : ¬ self.data.length / self.dtype.type_size * self.dtype.block_size <
      ncols * nrows) :
    (∀ rhsLen o1, self.fwd force [nrows, ncols] (.F32 rhsLen)
        { dims := [1, ncols], contiguous_offsets := some (o1, o1 + ncols) } =
      .ok { path := .vec, strategy := some (if force then .dmmv else .viaQ8_1),
            outShape := [1, nrows], outLen := nrows, dequantizedElems := none })
    ∧ (∀ rhsLen o1, self.fwd force [nrows, ncols] (.F32 rhsLen)
        { dims := [1, 1, ncols], contiguous_offsets := some (o1, o1 + ncols) } =
      .ok { path := .vec, strategy := some (if force then .dmmv else .viaQ8_1),
            outShape := [1, 1, nrows], outLen := nrows,
            dequantizedElems := none })
    ∧ (∀ storage co b m, isVecShape [b, m, ncols] = false →
      self.fwd force [nrows, ncols] storage
          { dims := [b, m, ncols], contiguous_offsets := co } =
      .ok { path := .mat, strategy := none, outShape := [b, m, nrows],
            outLen := b * m * nrows, dequantizedElems := some (nrows * ncols) })
    ∧ (∀ storage co m, isVecShape [m, ncols] = false →
      self.fwd force [nrows, ncols] storage
          { dims := [m, ncols], contiguous_offsets := co } =
      .ok { path := .mat, strategy := none, outShape := [m, nrows],
            outLen := m * nrows, dequantizedElems := some (nrows * ncols) })
    ∧ (∀ rhsLen o1 o2 k, k ≠ ncols →
      self.fwd force [nrows, ncols] (.F32 rhsLen)
          { dims := [1, k], contiguous_offsets := some (o1, o2) } =
        .error (.mismatchMatmulDim [nrows, ncols] [1, k])
      ∧ self.fwd force [nrows, ncols] (.F32 rhsLen)
          { dims := [1, 1, k], contiguous_offsets := some (o1, o2) } =
        .error (.mismatchMatmulDim [nrows, ncols] [1, 1, k]))
    ∧ (∀ storage co b m k, isVecShape [b, m, k] = false → k ≠ ncols →
      self.fwd force [nrows, ncols] storage
          { dims := [b, m, k], contiguous_offsets := co } =
      .error (.mismatchMatmulDim [nrows, ncols] [b, m, k]))
    ∧ (∀ storage co m k, isVecShape [m, k] = false → k ≠ ncols →
      self.fwd force [nrows, ncols] storage
          { dims := [m, k], contiguous_offsets := co } =
      .error (.mismatchMatmulDim [nrows, ncols] [m, k])) := by
  refine ⟨?_, ?_, ?_, ?_, ?_, ?_, ?_⟩
  · intro rhsLen o1
    have h := dequantize_matmul_vec_eval self force nrows ncols o1 rhsLen false
      hdata h1 h2
    simpa [QCudaStorage.fwd, isVecShape] using h
  · intro rhsLen o1
    have h := dequantize_matmul_vec_eval self force nrows ncols o1 rhsLen true
      hdata h1 h2
    simpa [QCudaStorage.fwd, isVecShape] using h
  · intro storage co b m hv
    have h := dequantize_matmul_eval self nrows ncols b m storage
      { dims := [b, m, ncols], contiguous_offsets := co } rfl
    simpa [QCudaStorage.fwd, hv] using h
  · intro storage co m hv
    have h := dequantize_matmul_eval self nrows ncols 1 m storage
      { dims := [m, ncols], contiguous_offsets := co } rfl
    simpa [QCudaStorage.fwd, hv] using h
  · intro rhsLen o1 o2 k hk
    have hk' : ncols ≠ k := hk.symm
    constructor <;>
      simp [QCudaStorage.fwd, isVecShape, QCudaStorage.dequantize_matmul_vec,
        dims2, CudaStorageSlice.asF32Len, dmmvRhsShape, hk']
  · intro storage co b m k hv hk
    simp [QCudaStorage.fwd, hv, QCudaStorage.dequantize_matmul, dims2, bmk, hk]
  · intro storage co m k hv hk
    simp [QCudaStorage.fwd, hv, QCudaStorage.dequantize_matmul, dims2, bmk, hk]

/-- Claim C2 witness: scheme `Q4_0`, a 2×32 matrix; a `[1, 32]` operand goes
to the vector path, a `[3, 4, 32]` operand to the matrix path, and a
`[1, 31]` operand fails with the dimension mismatch error. -/
theorem claim_C2_witness :
    (QCudaStorage.zeros 64 .Q4_0).fwd true [2, 32] (.F32 32)
        { dims := [1, 32], contiguous_offsets := some (0, 32) } =
      .ok { path := .vec, strategy := some .dmmv, outShape := [1, 2],
            outLen := 2, dequantizedElems := none }
    ∧ (QCudaStorage.zeros 64 .Q4_0).fwd true [2, 32] (.F32 99)
        { dims := [3, 4, 32], contiguous_offsets := none } =
      .ok { path := .mat, strategy := none, outShape := [3, 4, 2],
            outLen := 24, dequantizedElems := some 64 }
    ∧ (QCudaStorage.zeros 64 .Q4_0).fwd true [2, 32] (.F32 31)
        { dims := [1, 31], contiguous_offsets := some (0, 31) } =
      .error (.mismatchMatmulDim [2, 32] [1, 31]) := by
  have h := claim_C2 (QCudaStorage.zeros 64 .Q4_0) true 2 32
    (by decide) (by decide) (by decide)
  refine ⟨by simpa using h.1 32 0, ?_, ?_⟩
  · have h3 := h.2.2.1 (.F32 99) none 3 4 (by decide)
    simpa using h3
  · have h5 := (h.2.2.2.2.1 31 0 31 31 (by decide)).1
    simpa using h5

/-- Claim C10: the matrix path dequantizes the quantized matrix to exactly
`n * k` elements taken from its declared shape `[n, k]`, and — unlike the
vector path — performs no buffer-size check: for every storage (any buffer
byte length), shape, operand and layout, `dequantize_matmul` never fails
with one of the buffer/vector size-check (shape-mismatch) errors. -/
theorem claim_C10 (self : QCudaStorage) (self_shape : List Nat)
    (storage : CudaStorageSlice) (layout : Layout) :
    failsSizeCheck (self.dequantize_matmul self_shape storage layout) = false
    ∧ (∀ n k b m, self_shape = [n, k] → bmk layout.dims = .ok (b, m, k) →
        self.dequantize_matmul self_shape storage layout =
          .ok { path := .mat, strategy := none,
                outShape := layout.dims.dropLast ++ [n],
                outLen := b * m * n, dequantizedElems := some (n * k) }) := by
  constructor
  · rcases h1 : dims2 self_shape with e | ⟨n, k⟩
    · obtain rfl := dims2_error_shape _ _ h1
      simp [QCudaStorage.dequantize_matmul, h1, failsSizeCheck,
        CudaError.isSizeCheck]
    · rcases h2 : bmk layout.dims with e2 | ⟨b, m, k2⟩
      · obtain rfl := bmk_error_shape _ _ h2
        simp [QCudaStorage.dequantize_matmul, h1, h2, failsSizeCheck,
          CudaError.isSizeCheck]
      · obtain ⟨o, ho⟩ := QCudaStorage.dequantize_ok self (n * k)
        by_cases hk : k2 ≠ k <;>
          simp [QCudaStorage.dequantize_matmul, h1, h2, hk, ho, failsSizeCheck,
            CudaError.isSizeCheck]
  · intro n k b m hs hb
    subst hs
    exact dequantize_matmul_eval self n k b m storage layout hb

/-- Claim C10 witness: a `Q4_0` storage with an empty (0-byte) buffer and
declared shape `[2, 32]` still succeeds on the matrix path with a `[3, 32]`
operand, dequantizing 64 elements — no buffer-size error is raised even
though the buffer holds no data at all. -/
theorem claim_C10_witness :
    failsSizeCheck ((⟨[], .Q4_0⟩ : QCudaStorage).dequantize_matmul [2, 32]
      .other { dims := [3, 32], contiguous_offsets := none }) = false
    ∧ (⟨[], .Q4_0⟩ : QCudaStorage).dequantize_matmul [2, 32] .other
        { dims := [3, 32], contiguous_offsets := none } =
      .ok { path := .mat, strategy := none, outShape := [3, 2], outLen := 6,
            dequantizedElems := some 64 } := by
  have h := claim_C10 (⟨[], .Q4_0⟩ : QCudaStorage) [2, 32] .other
    { dims := [3, 32], contiguous_offsets := none }
  refine ⟨h.1, ?_⟩
  have h2 := h.2 2 32 1 3 rfl rfl
  simpa using h2

end Candle
